import Mathlib

/-!
Verification development for the lazy-loading object model and serialization
engine of `peloton.py` (a read-only client library for a fitness-tracking
REST API).

The embedding mirrors the source:

* A Python attribute value is a `Value`: strings, ints, dicts, datetimes
  (epoch seconds, UTC — the source builds them with
  `datetime.fromtimestamp(epoch, timezone.utc)`; the embedding restricts
  epochs to non-negative integers), decimals (restricted to an exact number
  of tenths, since the source renders them with one fractional digit),
  `None`, the `NotLoaded` lazy-loading marker, tuples (`vPair`), floats
  (payload-free token — the serializer only needs to know a float is not one
  of the recognised `(str, int, dict)` types), nested `PelotonObject`s and
  lists.
* `serializeAttrs` / `serializeList` / `serializeElem` translate
  `PelotonObject.serialize` (source lines 120-200).
* `WorkoutState`, `workoutInit` and `getattrW` translate
  `PelotonWorkout.__init__` and `PelotonWorkout.__getattribute__`
  (source lines 319-392), with the HTTP factories
  (`PelotonWorkoutFactory.get`, `PelotonWorkoutMetricsFactory.get`)
  abstracted as a `Fetcher` oracle returning raw payload mappings, and a
  fuel parameter making the (possibly non-terminating) resolution recursion
  definable; running out of fuel yields the distinguished `diverge` result.
-/

/-- The error taxonomy of the source: `PelotonRedirectError`,
`PelotonClientError`, `PelotonServerError` (all carrying a message). -/
inductive PError where
  | redirect (msg : String)
  | client (msg : String)
  | server (msg : String)

mutual

/-- A Python attribute value as used by the peloton module. -/
inductive Value where
  | vStr (s : String)
  | vInt (n : Int)
  | vDatetime (epoch : Nat)
  | vDecimal (tenths : Int)
  | vNone
  | vNotLoaded
  | vFloat
  | vPair (a b : Value)
  | vDict (d : Fields)
  | vObj (o : PObj)
  | vList (l : ValueList)

/-- A list of values (a Python `list`). -/
inductive ValueList where
  | nil
  | cons (v : Value) (rest : ValueList)

/-- An insertion-ordered string-keyed mapping (a Python `dict` /
an object's `__dict__`). -/
inductive Fields where
  | nil
  | cons (k : String) (v : Value) (rest : Fields)

/-- A `PelotonObject`: its `__dict__`. -/
inductive PObj where
  | mk (attrs : Fields)

end

/-- Python truthiness of a list: `not v` holds exactly when it is empty. -/
def ValueList.isNil : ValueList → Bool
  | .nil => true
  | .cons _ _ => false

/-- `type(value) is NotLoaded` (source line 371). -/
def Value.isNotLoaded : Value → Bool
  | .vNotLoaded => true
  | _ => false

/-- First-occurrence lookup in a mapping (Python dict access /
`dict.get` returning `None` as `Option.none`). -/
def lookupF : Fields → String → Option Value
  | .nil, _ => none
  | .cons k v rest, key => if k = key then some v else lookupF rest key

/-- The attributes of a `PObj`. -/
def PObj.attrs : PObj → Fields
  | .mk a => a

/-- Python `s.startswith(p)`, computed on the character lists (the built-in
`String.startsWith` does not reduce inside the kernel). -/
def pyStartsWith (s p : String) : Bool :=
  p.data.isPrefixOf s.data

/-- Python `"%.1f" % val` on a decimal holding `tenths / 10`:
a fixed-point rendering with exactly one fractional digit. -/
def fmtDec (tenths : Int) : String :=
  (if tenths < 0 then "-" else "")
    ++ toString (tenths.natAbs / 10) ++ "." ++ toString (tenths.natAbs % 10)

/-- Zero-pad a number to two digits. -/
def pad2 (n : Nat) : String :=
  if n < 10 then "0" ++ toString n else toString n

/-- Zero-pad a year to four digits. -/
def pad4 (n : Nat) : String :=
  if n < 10 then "000" ++ toString n
  else if n < 100 then "00" ++ toString n
  else if n < 1000 then "0" ++ toString n
  else toString n

/-- Proleptic-Gregorian civil date from a count of days since 1970-01-01
(non-negative), as `(year, month, day)`. -/
def civilFromDays (z : Nat) : Nat × Nat × Nat :=
  let z' := z + 719468
  let era := z' / 146097
  let doe := z' % 146097
  let yoe := (doe - doe / 1460 + doe / 36524 - doe / 146096) / 365
  let y := yoe + era * 400
  let doy := doe - (365 * yoe + yoe / 4 - yoe / 100)
  let mp := (5 * doy + 2) / 153
  let d := doy - (153 * mp + 2) / 5 + 1
  let m := if mp < 10 then mp + 3 else mp - 9
  (if m ≤ 2 then y + 1 else y, m, d)

/-- `datetime.fromtimestamp(epoch, timezone.utc).isoformat()`:
an ISO-8601 rendering such as `1970-01-01T00:00:00+00:00`
(microseconds are zero, so no fractional part is emitted). -/
def isoformat (epoch : Nat) : String :=
  let days := epoch / 86400
  let secs := epoch % 86400
  let ymd := civilFromDays days
  pad4 ymd.1 ++ "-" ++ pad2 ymd.2.1 ++ "-" ++ pad2 ymd.2.2
    ++ "T" ++ pad2 (secs / 3600) ++ ":" ++ pad2 (secs % 3600 / 60)
    ++ ":" ++ pad2 (secs % 60) ++ "+00:00"

/-- The scalar branch of `serialize` (source lines 189-197): datetimes and
dates render via `isoformat`, decimals via `"%.1f"`, everything else passes
through unchanged. -/
def serializeScalar : Value → Value
  | .vDatetime t => .vStr (isoformat t)
  | .vDecimal t => .vStr (fmtDec t)
  | v => v

mutual

/-- The serialization loop over `obj_attrs.items()` (source lines 153-197).
Private (underscore-prefixed) keys are skipped; nested objects recurse with
`depth - 1` only when `depth > 1` and are omitted entirely otherwise; lists
go through the element loop, and the key is kept only when the serialized
list is non-empty or the stored list itself was empty (source lines
180-187); all other values take the scalar branch. -/
def serializeAttrs : Fields → Nat → Fields
  | .nil, _ => .nil
  | .cons k v rest, depth =>
    let tail := serializeAttrs rest depth
    if pyStartsWith k "_" then tail
    else
      match v with
      | .vObj o =>
        if 1 < depth then .cons k (.vDict (serializePObj o (depth - 1))) tail
        else tail
      | .vList l =>
        let sl := serializeList l depth
        if sl.isNil then
          if l.isNil then .cons k (.vList .nil) tail else tail
        else .cons k (.vList sl) tail
      | v => .cons k (serializeScalar v) tail
termination_by structural fs _ => fs

/-- The element loop over a list attribute (source lines 164-178):
elements of unrecognized type are dropped. -/
def serializeList : ValueList → Nat → ValueList
  | .nil, _ => .nil
  | .cons v rest, depth =>
    match serializeElem v depth with
    | some sv => .cons sv (serializeList rest depth)
    | none => serializeList rest depth
termination_by structural l _ => l

/-- One element of a list attribute (source lines 167-178): nested objects
recurse (dropped when depth is exhausted), datetimes/dates render ISO-8601,
decimals render fixed-point, `(str, int, dict)` pass through, and anything
else (tuples, `None`, floats, nested lists, the `NotLoaded` marker) is
silently dropped. -/
def serializeElem : Value → Nat → Option Value
  | .vObj o, depth =>
    if 1 < depth then some (.vDict (serializePObj o (depth - 1))) else none
  | .vDatetime t, _ => some (.vStr (isoformat t))
  | .vDecimal t, _ => some (.vStr (fmtDec t))
  | .vStr s, _ => some (.vStr s)
  | .vInt n, _ => some (.vInt n)
  | .vDict d, _ => some (.vDict d)
  | _, _ => none
termination_by structural v _ => v

/-- Serialize a nested object's attributes (the recursive call
`v.serialize(depth=depth - 1)`, which leaves `load_all` at its default
`True`). -/
def serializePObj : PObj → Nat → Fields
  | .mk attrs, depth => serializeAttrs attrs depth
termination_by structural o _ => o

end

/-- `PelotonObject.serialize(depth, load_all)` (source lines 120-200) on an
object whose attribute reads are plain (every entity except a live
`PelotonWorkout`). `depth == 0` returns `None`. When `load_all` is true the
attribute-gathering loop copies every attribute through `getattr` (a plain
read here). When `load_all` is false the source computes the `dont_load`
list but never populates `obj_attrs`, so the serialization loop iterates
over nothing and the result is the empty mapping. -/
def serializeObj (o : PObj) (depth : Nat) (load_all : Bool) : Option Fields :=
  if depth = 0 then none
  else if load_all then some (serializePObj o depth)
  else some Fields.nil

/-- The instance state of a `PelotonWorkout` (the attributes set by
`__init__`, source lines 319-360, in insertion order). -/
structure WorkoutState where
  id : Value
  ride : Value
  metrics : Value
  achievements : Value
  created : Value
  created_at : Value
  start_time : Value
  end_time : Value
  fitness_discipline : Value
  leaderboard_rank : Value
  leaderboard_users : Value
  status : Value

/-- Python `d[key]` on a raw payload value (used for
`achievement['name']` / `achievement['description']`). A missing key or a
non-mapping receiver raises in the source; the embedding returns `None`
there (no claim depends on that corner). -/
def dictIndex (v : Value) (key : String) : Value :=
  match v with
  | .vDict d => (lookupF d key).getD .vNone
  | _ => .vNone

/-- The achievement loop of `__init__` (source lines 338-341): each raw
achievement template becomes the tuple
`(achievement['name'], achievement['description'])`. -/
def achievementPairs : ValueList → ValueList
  | .nil => .nil
  | .cons t rest =>
    .cons (.vPair (dictIndex t "name") (dictIndex t "description"))
      (achievementPairs rest)

/-- `PelotonRide.__init__` (source lines 414-420): the five attributes in
insertion order, each `kwargs.get(...)` defaulting to `None`. -/
def rideInit (d : Fields) : PObj :=
  .mk (.cons "title" ((lookupF d "title").getD .vNone)
    (.cons "id" ((lookupF d "id").getD .vNone)
      (.cons "description" ((lookupF d "description").getD .vNone)
        (.cons "duration" ((lookupF d "duration").getD .vNone)
          (.cons "instructor_id" ((lookupF d "instructor_id").getD .vNone)
            .nil)))))

/-- `kwargs.get(key, 0)` fed to `datetime.fromtimestamp`: the embedding
restricts timestamps to non-negative integer epochs (any other payload
value would raise a `TypeError` in the source). -/
def epochOf (v : Option Value) : Nat :=
  match v with
  | some (.vInt n) => n.toNat
  | _ => 0

/-- `PelotonWorkout.__init__(**kwargs)` (source lines 319-360). `ride` and
`achievements` start as `NotLoaded` and are populated only when the raw
payload carries a (non-`None`) `ride` mapping / `achievement_templates`
sequence; `metrics` always starts `NotLoaded`; `leaderboard_rank` and
`leaderboard_users` default to `NotLoaded` when their keys are absent; the
four timestamps default to epoch 0. A `ride` payload value that is neither
a mapping nor `None`, or a non-sequence `achievement_templates`, raises in
the source and is mapped to the deferred marker here (no claim touches
those corners). -/
def workoutInit (raw : Fields) : WorkoutState where
  id := (lookupF raw "id").getD .vNone
  ride :=
    match lookupF raw "ride" with
    | some (.vDict d) => .vObj (rideInit d)
    | _ => .vNotLoaded
  metrics := .vNotLoaded
  achievements :=
    match lookupF raw "achievement_templates" with
    | some (.vList ts) => .vList (achievementPairs ts)
    | _ => .vNotLoaded
  created := .vDatetime (epochOf (lookupF raw "created"))
  created_at := .vDatetime (epochOf (lookupF raw "created_at"))
  start_time := .vDatetime (epochOf (lookupF raw "start_time"))
  end_time := .vDatetime (epochOf (lookupF raw "end_time"))
  fitness_discipline := (lookupF raw "fitness_discipline").getD .vNone
  leaderboard_rank := (lookupF raw "leaderboard_rank").getD .vNotLoaded
  leaderboard_users := (lookupF raw "total_leaderboard_users").getD .vNotLoaded
  status := (lookupF raw "status").getD .vNone

/-- `object.__getattribute__(self, attr)` on a Workout: the plain stored
value, with no lazy resolution (source line 367). Reading a name the
instance does not define raises `AttributeError` in the source; the
embedding is only applied to the twelve defined attributes and returns
`None` elsewhere. -/
def plainGet (w : WorkoutState) (attr : String) : Value :=
  if attr = "id" then w.id
  else if attr = "ride" then w.ride
  else if attr = "metrics" then w.metrics
  else if attr = "achievements" then w.achievements
  else if attr = "created" then w.created
  else if attr = "created_at" then w.created_at
  else if attr = "start_time" then w.start_time
  else if attr = "end_time" then w.end_time
  else if attr = "fitness_discipline" then w.fitness_discipline
  else if attr = "leaderboard_rank" then w.leaderboard_rank
  else if attr = "leaderboard_users" then w.leaderboard_users
  else if attr = "status" then w.status
  else .vNone

/-- The abstract Fetcher capability. `fetchDetail` is
`PelotonWorkoutFactory.get` up to construction: it performs the
`/api/workout/{id}` request and yields the raw workout mapping (the core
then builds `PelotonWorkout(**raw)` itself). `fetchMetrics` is
`PelotonWorkoutMetricsFactory.get`: it performs the
`performance_graph` request and yields the constructed
`PelotonWorkoutMetrics` object. Either operation may fail with a
classified `PError`. -/
structure Fetcher where
  fetchDetail : Value → Except PError Fields
  fetchMetrics : Value → Except PError PObj

/-- Outcome of one (possibly resolving) attribute read: the value, the
updated instance state and the number of Fetcher calls made; or an error
with the state as committed so far; or `diverge` when the resolution
recursion exceeded the fuel (the source would recurse without bound). -/
inductive GetResult where
  | ok (v : Value) (w : WorkoutState) (calls : Nat)
  | err (e : PError) (w : WorkoutState) (calls : Nat)
  | diverge

/-- The deferred-eligible attribute names (source line 371). -/
def lazyNames : List String :=
  ["metrics", "leaderboard_rank", "leaderboard_users", "achievements"]

/-- `PelotonWorkout.__getattribute__` (source lines 365-392), fueled.
When the requested attribute is deferred-eligible and currently holds the
`NotLoaded` marker: `metrics` resolves through `fetchMetrics` and is stored;
the leaderboard/achievements trio resolves through one `fetchDetail`, a
fresh Workout is built from the raw payload, and the three values are
pulled out of it with ordinary attribute reads — which themselves go
through this very interception, so a payload missing one of the keys
re-triggers resolution on the fetched object — assigned to `self` one at a
time, and finally the requested attribute is re-read from `self`.
All other reads return the stored value unchanged. -/
def getattrW (f : Fetcher) : Nat → WorkoutState → String → GetResult
  | 0, _, _ => .diverge
  | fuel + 1, w, attr =>
    let value := plainGet w attr
    if lazyNames.contains attr && value.isNotLoaded then
      if attr = "metrics" then
        match f.fetchMetrics w.id with
        | .error e => .err e w 1
        | .ok m => .ok (.vObj m) { w with metrics := .vObj m } 1
      else if pyStartsWith attr "leaderboard_" || attr = "achievements" then
        match f.fetchDetail w.id with
        | .error e => .err e w 1
        | .ok raw =>
          let fw := workoutInit raw
          match getattrW f fuel fw "leaderboard_rank" with
          | .diverge => .diverge
          | .err e _ c1 => .err e w (1 + c1)
          | .ok lr fw1 c1 =>
            let w1 := { w with leaderboard_rank := lr }
            match getattrW f fuel fw1 "leaderboard_users" with
            | .diverge => .diverge
            | .err e _ c2 => .err e w1 (1 + c1 + c2)
            | .ok lu fw2 c2 =>
              let w2 := { w1 with leaderboard_users := lu }
              match getattrW f fuel fw2 "achievements" with
              | .diverge => .diverge
              | .err e _ c3 => .err e w2 (1 + c1 + c2 + c3)
              | .ok ach _ c3 =>
                let w3 := { w2 with achievements := ach }
                match getattrW f fuel w3 attr with
                | .diverge => .diverge
                | .err e w4 c4 => .err e w4 (1 + c1 + c2 + c3 + c4)
                | .ok v w4 c4 => .ok v w4 (1 + c1 + c2 + c3 + c4)
      else .ok value w 0
    else .ok value w 0

/-- Number of Fetcher calls recorded in a result (`0` on divergence). -/
def GetResult.callsD : GetResult → Nat
  | .ok _ _ c => c
  | .err _ _ c => c
  | .diverge => 0

/-- The instance state in a result (a supplied default on divergence). -/
def GetResult.stateD (d : WorkoutState) : GetResult → WorkoutState
  | .ok _ w _ => w
  | .err _ w _ => w
  | .diverge => d

/-- The value of a successful read (`None` otherwise). -/
def GetResult.valD : GetResult → Value
  | .ok v _ _ => v
  | _ => .vNone

/-- The propagated error, when the read failed. -/
def GetResult.errD : GetResult → Option PError
  | .err e _ _ => some e
  | _ => none

/-- Whether the read ran out of fuel. -/
def GetResult.isDiverge : GetResult → Bool
  | .diverge => true
  | _ => false

/-- The keys of `self.__dict__` on a Workout, in insertion order. -/
def workoutAttrNames : List String :=
  ["id", "ride", "metrics", "achievements", "created", "created_at",
   "start_time", "end_time", "fitness_discipline", "leaderboard_rank",
   "leaderboard_users", "status"]

/-- Outcome of gathering `obj_attrs` or serializing a live Workout. -/
inductive GatherResult where
  | ok (fs : Fields) (w : WorkoutState) (calls : Nat)
  | err (e : PError) (w : WorkoutState) (calls : Nat)
  | diverge

/-- The `obj_attrs[k] = getattr(self, k)` loop of `serialize` with
`load_all=True` (source lines 142-145): every attribute is read through
the resolving `__getattribute__`, threading state and Fetcher calls. -/
def gatherAttrs (f : Fetcher) (fuel : Nat) :
    List String → WorkoutState → GatherResult
  | [], w => .ok .nil w 0
  | k :: rest, w =>
    match getattrW f fuel w k with
    | .diverge => .diverge
    | .err e w' c => .err e w' c
    | .ok v w' c =>
      match gatherAttrs f fuel rest w' with
      | .diverge => .diverge
      | .err e w'' c' => .err e w'' (c + c')
      | .ok fs w'' c' => .ok (.cons k v fs) w'' (c + c')

/-- Outcome of `serialize` on a live Workout: the optional output mapping
(`none` models the `None` returned at depth 0), the final instance state
and the Fetcher calls made. -/
inductive SerResult where
  | ok (out : Option Fields) (w : WorkoutState) (calls : Nat)
  | err (e : PError) (w : WorkoutState) (calls : Nat)
  | diverge

/-- `PelotonWorkout.serialize(depth, load_all)`: the inherited
`PelotonObject.serialize` run on a live Workout, where the `load_all=True`
gathering loop performs resolving reads. Depth 0 returns `None` before any
attribute is touched. With `load_all=False` the source computes `dont_load`
from plain (`super().__getattribute__`) reads — no resolution — but never
populates `obj_attrs`, so the output is the empty mapping. -/
def workoutSerialize (f : Fetcher) (fuel : Nat) (w : WorkoutState)
    (depth : Nat) (load_all : Bool) : SerResult :=
  if depth = 0 then .ok none w 0
  else if load_all then
    match gatherAttrs f fuel workoutAttrNames w with
    | .diverge => .diverge
    | .err e w' c => .err e w' c
    | .ok fs w' c => .ok (some (serializeAttrs fs depth)) w' c
  else .ok (some .nil) w 0

/-- Fetcher calls recorded in a serialization result. -/
def SerResult.callsD : SerResult → Nat
  | .ok _ _ c => c
  | .err _ _ c => c
  | .diverge => 0

/-- The instance state after serialization (default on divergence). -/
def SerResult.stateD (d : WorkoutState) : SerResult → WorkoutState
  | .ok _ w _ => w
  | .err _ w _ => w
  | .diverge => d

/-- The output mapping of a successful serialization. -/
def SerResult.outD : SerResult → Option Fields
  | .ok o _ _ => o
  | _ => none

/-- A Workout's `__dict__` as a plain serializable object (the view the
inherited serializer sees once no read resolves anything). -/
def workoutToPObj (w : WorkoutState) : PObj :=
  .mk (.cons "id" w.id (.cons "ride" w.ride (.cons "metrics" w.metrics
    (.cons "achievements" w.achievements (.cons "created" w.created
      (.cons "created_at" w.created_at (.cons "start_time" w.start_time
        (.cons "end_time" w.end_time
          (.cons "fitness_discipline" w.fitness_discipline
            (.cons "leaderboard_rank" w.leaderboard_rank
              (.cons "leaderboard_users" w.leaderboard_users
                (.cons "status" w.status .nil))))))))))))

/-- The state a Workout reaches after one successful detail fetch resolved
the leaderboard/achievements trio (lines 382-386 of the source). -/
def trioResolved (w : WorkoutState) (r u : Value) (ts : ValueList) : WorkoutState :=
  { w with leaderboard_rank := r, leaderboard_users := u,
           achievements := .vList (achievementPairs ts) }

/-- A Workout fresh from a listing payload with no joined ride: every
deferred-eligible field still holds the marker. -/
def wDef : WorkoutState where
  id := .vStr "w1"
  ride := .vNotLoaded
  metrics := .vNotLoaded
  achievements := .vNotLoaded
  created := .vDatetime 0
  created_at := .vDatetime 0
  start_time := .vDatetime 0
  end_time := .vDatetime 0
  fitness_discipline := .vStr "cycling"
  leaderboard_rank := .vNotLoaded
  leaderboard_users := .vNotLoaded
  status := .vStr "COMPLETE"

/-- A well-formed workout-detail payload carrying the leaderboard rank,
total leaderboard users and achievement templates. -/
def rawGood : Fields :=
  .cons "id" (.vStr "w1")
    (.cons "leaderboard_rank" (.vInt 5)
      (.cons "total_leaderboard_users" (.vInt 100)
        (.cons "achievement_templates" (.vList .nil) .nil)))

/-- The constructed metrics object a healthy metrics fetch returns. -/
def mObj : PObj := .mk (.cons "name" (.vStr "m") .nil)

/-- A healthy Fetcher: detail requests return `rawGood`, metrics requests
return `mObj`. -/
def fGood : Fetcher where
  fetchDetail := fun _ => .ok rawGood
  fetchMetrics := fun _ => .ok mObj

/-- A detail payload that lacks all three of the leaderboard/achievements
keys (so the fields of the Workout built from it are again deferred). -/
def rawLack : Fields := .cons "id" (.vStr "x") .nil

/-- A Fetcher whose detail payload always lacks the trio keys. -/
def fLack : Fetcher where
  fetchDetail := fun _ => .ok rawLack
  fetchMetrics := fun _ => .ok mObj

/-- A detail payload (for workout `a`) that carries `leaderboard_rank` and
`achievement_templates` but lacks `total_leaderboard_users`, and names
workout `b` as its id. -/
def rawA : Fields :=
  .cons "id" (.vStr "b")
    (.cons "leaderboard_rank" (.vInt 1)
      (.cons "achievement_templates" (.vList .nil) .nil))

/-- A complete detail payload (for workout `b`). -/
def rawB : Fields :=
  .cons "id" (.vStr "c")
    (.cons "leaderboard_rank" (.vInt 7)
      (.cons "total_leaderboard_users" (.vInt 9)
        (.cons "achievement_templates" (.vList .nil) .nil)))

/-- A Fetcher that answers workout `a` with the incomplete `rawA` and every
other id with the complete `rawB`. -/
def fTwo : Fetcher where
  fetchDetail := fun v =>
    match v with
    | .vStr "a" => .ok rawA
    | _ => .ok rawB
  fetchMetrics := fun _ => .ok mObj

/-- `wDef` relabelled as workout `a`. -/
def w0a : WorkoutState := { wDef with id := .vStr "a" }

/-- A Fetcher whose detail payload for workout `a` carries
`leaderboard_rank` but lacks the other trio keys and points at workout `b`,
for which every fetch fails with a server error. -/
def fBad : Fetcher where
  fetchDetail := fun v =>
    match v with
    | .vStr "a" =>
      .ok (.cons "id" (.vStr "b") (.cons "leaderboard_rank" (.vInt 42) .nil))
    | _ => .error (.server "boom")
  fetchMetrics := fun _ => .ok mObj

/-- A Fetcher for which every operation fails. -/
def fErr : Fetcher where
  fetchDetail := fun _ => .error (.client "c400")
  fetchMetrics := fun _ => .error (.server "s500")

/-- A `PelotonUser`-shaped entity: two public, non-deferred attributes. -/
def demoUser : PObj :=
  .mk (.cons "username" (.vStr "alice") (.cons "id" (.vStr "u1") .nil))

/-- A concrete nested ride object. -/
def demoRide : PObj := rideInit (.cons "title" (.vStr "30 min ride") .nil)

/-- `wDef` with a joined ride attached. -/
def wRide : WorkoutState := { wDef with ride := .vObj demoRide }

lemma getattrW_loaded (f : Fetcher) (fuel : Nat) (w : WorkoutState) (attr : String)
    (h : (plainGet w attr).isNotLoaded = false) :
    getattrW f (fuel + 1) w attr = .ok (plainGet w attr) w 0 := by
  simp [getattrW, h]

lemma getattrW_metrics_ok (f : Fetcher) (fuel : Nat) (w : WorkoutState) (m : PObj)
    (hm : w.metrics = .vNotLoaded) (hfm : f.fetchMetrics w.id = .ok m) :
    getattrW f (fuel + 1) w "metrics" = .ok (.vObj m) { w with metrics := .vObj m } 1 := by
  have hp : plainGet w "metrics" = w.metrics := rfl
  simp [getattrW, hp, hm, hfm, Value.isNotLoaded, lazyNames]

lemma getattrW_metrics_err (f : Fetcher) (fuel : Nat) (w : WorkoutState) (e : PError)
    (hm : w.metrics = .vNotLoaded) (hfm : f.fetchMetrics w.id = .error e) :
    getattrW f (fuel + 1) w "metrics" = .err e w 1 := by
  have hp : plainGet w "metrics" = w.metrics := rfl
  simp [getattrW, hp, hm, hfm, Value.isNotLoaded, lazyNames]

lemma getattrW_trio_rank (f : Fetcher) (fuel : Nat) (w : WorkoutState)
    (raw : Fields) (r u : Value) (ts : ValueList)
    (hlr : w.leaderboard_rank = .vNotLoaded)
    (hdet : f.fetchDetail w.id = .ok raw)
    (hr : lookupF raw "leaderboard_rank" = some r) (hrn : r.isNotLoaded = false)
    (hu : lookupF raw "total_leaderboard_users" = some u) (hun : u.isNotLoaded = false)
    (ha : lookupF raw "achievement_templates" = some (.vList ts)) :
    getattrW f (fuel + 2) w "leaderboard_rank" = .ok r (trioResolved w r u ts) 1 := by
  have hp : plainGet w "leaderboard_rank" = w.leaderboard_rank := rfl
  have hfwr : (workoutInit raw).leaderboard_rank = r := by simp [workoutInit, hr]
  have hfwu : (workoutInit raw).leaderboard_users = u := by simp [workoutInit, hu]
  have hfwa : (workoutInit raw).achievements = .vList (achievementPairs ts) := by
    simp [workoutInit, ha]
  have h1 : getattrW f (fuel + 1) (workoutInit raw) "leaderboard_rank"
      = .ok r (workoutInit raw) 0 := by
    have := getattrW_loaded f fuel (workoutInit raw) "leaderboard_rank"
      (by rw [show plainGet (workoutInit raw) "leaderboard_rank"
            = (workoutInit raw).leaderboard_rank from rfl, hfwr, hrn])
    rwa [show plainGet (workoutInit raw) "leaderboard_rank"
      = (workoutInit raw).leaderboard_rank from rfl, hfwr] at this
  have h2 : getattrW f (fuel + 1) (workoutInit raw) "leaderboard_users"
      = .ok u (workoutInit raw) 0 := by
    have := getattrW_loaded f fuel (workoutInit raw) "leaderboard_users"
      (by rw [show plainGet (workoutInit raw) "leaderboard_users"
            = (workoutInit raw).leaderboard_users from rfl, hfwu, hun])
    rwa [show plainGet (workoutInit raw) "leaderboard_users"
      = (workoutInit raw).leaderboard_users from rfl, hfwu] at this
  have h3 : getattrW f (fuel + 1) (workoutInit raw) "achievements"
      = .ok (.vList (achievementPairs ts)) (workoutInit raw) 0 := by
    have := getattrW_loaded f fuel (workoutInit raw) "achievements"
      (by rw [show plainGet (workoutInit raw) "achievements"
            = (workoutInit raw).achievements from rfl, hfwa]; rfl)
    rwa [show plainGet (workoutInit raw) "achievements"
      = (workoutInit raw).achievements from rfl, hfwa] at this
  have hself : getattrW f (fuel + 1) (trioResolved w r u ts) "leaderboard_rank"
      = .ok r (trioResolved w r u ts) 0 := by
    have := getattrW_loaded f fuel (trioResolved w r u ts) "leaderboard_rank"
      (by rw [show plainGet (trioResolved w r u ts) "leaderboard_rank"
            = (trioResolved w r u ts).leaderboard_rank from rfl]
          simp [trioResolved, hrn])
    rwa [show plainGet (trioResolved w r u ts) "leaderboard_rank"
      = (trioResolved w r u ts).leaderboard_rank from rfl,
      show (trioResolved w r u ts).leaderboard_rank = r by simp [trioResolved]] at this
  show getattrW f (fuel + 1 + 1) w "leaderboard_rank" = .ok r (trioResolved w r u ts) 1
  rw [getattrW]
  simp only [trioResolved] at hself
  simp only [hp, hlr, Value.isNotLoaded, lazyNames, hdet, h1, h2, h3]
  simp [hself, trioResolved, show pyStartsWith "leaderboard_rank" "leaderboard_" = true from rfl]

lemma getattrW_trio_users (f : Fetcher) (fuel : Nat) (w : WorkoutState)
    (raw : Fields) (r u : Value) (ts : ValueList)
    (hlu : w.leaderboard_users = .vNotLoaded)
    (hdet : f.fetchDetail w.id = .ok raw)
    (hr : lookupF raw "leaderboard_rank" = some r) (hrn : r.isNotLoaded = false)
    (hu : lookupF raw "total_leaderboard_users" = some u) (hun : u.isNotLoaded = false)
    (ha : lookupF raw "achievement_templates" = some (.vList ts)) :
    getattrW f (fuel + 2) w "leaderboard_users" = .ok u (trioResolved w r u ts) 1 := by
  have hp : plainGet w "leaderboard_users" = w.leaderboard_users := rfl
  have hfwr : (workoutInit raw).leaderboard_rank = r := by simp [workoutInit, hr]
  have hfwu : (workoutInit raw).leaderboard_users = u := by simp [workoutInit, hu]
  have hfwa : (workoutInit raw).achievements = .vList (achievementPairs ts) := by
    simp [workoutInit, ha]
  have h1 : getattrW f (fuel + 1) (workoutInit raw) "leaderboard_rank"
      = .ok r (workoutInit raw) 0 := by
    have := getattrW_loaded f fuel (workoutInit raw) "leaderboard_rank"
      (by rw [show plainGet (workoutInit raw) "leaderboard_rank"
            = (workoutInit raw).leaderboard_rank from rfl, hfwr, hrn])
    rwa [show plainGet (workoutInit raw) "leaderboard_rank"
      = (workoutInit raw).leaderboard_rank from rfl, hfwr] at this
  have h2 : getattrW f (fuel + 1) (workoutInit raw) "leaderboard_users"
      = .ok u (workoutInit raw) 0 := by
    have := getattrW_loaded f fuel (workoutInit raw) "leaderboard_users"
      (by rw [show plainGet (workoutInit raw) "leaderboard_users"
            = (workoutInit raw).leaderboard_users from rfl, hfwu, hun])
    rwa [show plainGet (workoutInit raw) "leaderboard_users"
      = (workoutInit raw).leaderboard_users from rfl, hfwu] at this
  have h3 : getattrW f (fuel + 1) (workoutInit raw) "achievements"
      = .ok (.vList (achievementPairs ts)) (workoutInit raw) 0 := by
    have := getattrW_loaded f fuel (workoutInit raw) "achievements"
      (by rw [show plainGet (workoutInit raw) "achievements"
            = (workoutInit raw).achievements from rfl, hfwa]; rfl)
    rwa [show plainGet (workoutInit raw) "achievements"
      = (workoutInit raw).achievements from rfl, hfwa] at this
  have hself : getattrW f (fuel + 1) (trioResolved w r u ts) "leaderboard_users"
      = .ok u (trioResolved w r u ts) 0 := by
    have := getattrW_loaded f fuel (trioResolved w r u ts) "leaderboard_users"
      (by rw [show plainGet (trioResolved w r u ts) "leaderboard_users"
            = (trioResolved w r u ts).leaderboard_users from rfl]
          simp [trioResolved, hun])
    rwa [show plainGet (trioResolved w r u ts) "leaderboard_users"
      = (trioResolved w r u ts).leaderboard_users from rfl,
      show (trioResolved w r u ts).leaderboard_users = u by simp [trioResolved]] at this
  show getattrW f (fuel + 1 + 1) w "leaderboard_users" = .ok u (trioResolved w r u ts) 1
  rw [getattrW]
  simp only [trioResolved] at hself
  simp only [hp, hlu, Value.isNotLoaded, lazyNames, hdet, h1, h2, h3]
  simp [hself, trioResolved, show pyStartsWith "leaderboard_users" "leaderboard_" = true from rfl]

lemma getattrW_trio_ach (f : Fetcher) (fuel : Nat) (w : WorkoutState)
    (raw : Fields) (r u : Value) (ts : ValueList)
    (hla : w.achievements = .vNotLoaded)
    (hdet : f.fetchDetail w.id = .ok raw)
    (hr : lookupF raw "leaderboard_rank" = some r) (hrn : r.isNotLoaded = false)
    (hu : lookupF raw "total_leaderboard_users" = some u) (hun : u.isNotLoaded = false)
    (ha : lookupF raw "achievement_templates" = some (.vList ts)) :
    getattrW f (fuel + 2) w "achievements"
      = .ok (.vList (achievementPairs ts)) (trioResolved w r u ts) 1 := by
  have hp : plainGet w "achievements" = w.achievements := rfl
  have hfwr : (workoutInit raw).leaderboard_rank = r := by simp [workoutInit, hr]
  have hfwu : (workoutInit raw).leaderboard_users = u := by simp [workoutInit, hu]
  have hfwa : (workoutInit raw).achievements = .vList (achievementPairs ts) := by
    simp [workoutInit, ha]
  have h1 : getattrW f (fuel + 1) (workoutInit raw) "leaderboard_rank"
      = .ok r (workoutInit raw) 0 := by
    have := getattrW_loaded f fuel (workoutInit raw) "leaderboard_rank"
      (by rw [show plainGet (workoutInit raw) "leaderboard_rank"
            = (workoutInit raw).leaderboard_rank from rfl, hfwr, hrn])
    rwa [show plainGet (workoutInit raw) "leaderboard_rank"
      = (workoutInit raw).leaderboard_rank from rfl, hfwr] at this
  have h2 : getattrW f (fuel + 1) (workoutInit raw) "leaderboard_users"
      = .ok u (workoutInit raw) 0 := by
    have := getattrW_loaded f fuel (workoutInit raw) "leaderboard_users"
      (by rw [show plainGet (workoutInit raw) "leaderboard_users"
            = (workoutInit raw).leaderboard_users from rfl, hfwu, hun])
    rwa [show plainGet (workoutInit raw) "leaderboard_users"
      = (workoutInit raw).leaderboard_users from rfl, hfwu] at this
  have h3 : getattrW f (fuel + 1) (workoutInit raw) "achievements"
      = .ok (.vList (achievementPairs ts)) (workoutInit raw) 0 := by
    have := getattrW_loaded f fuel (workoutInit raw) "achievements"
      (by rw [show plainGet (workoutInit raw) "achievements"
            = (workoutInit raw).achievements from rfl, hfwa]; rfl)
    rwa [show plainGet (workoutInit raw) "achievements"
      = (workoutInit raw).achievements from rfl, hfwa] at this
  have hself : getattrW f (fuel + 1) (trioResolved w r u ts) "achievements"
      = .ok (.vList (achievementPairs ts)) (trioResolved w r u ts) 0 := by
    have := getattrW_loaded f fuel (trioResolved w r u ts) "achievements"
      (by rw [show plainGet (trioResolved w r u ts) "achievements"
            = (trioResolved w r u ts).achievements from rfl]
          simp [trioResolved, Value.isNotLoaded])
    rwa [show plainGet (trioResolved w r u ts) "achievements"
      = (trioResolved w r u ts).achievements from rfl,
      show (trioResolved w r u ts).achievements = .vList (achievementPairs ts) by
        simp [trioResolved]] at this
  show getattrW f (fuel + 1 + 1) w "achievements"
    = .ok (.vList (achievementPairs ts)) (trioResolved w r u ts) 1
  rw [getattrW]
  simp only [trioResolved] at hself
  simp only [hp, hla, Value.isNotLoaded, lazyNames, hdet, h1, h2, h3]
  simp [hself, trioResolved, show pyStartsWith "achievements" "leaderboard_" = false from rfl]

lemma getattrW_trio_err (f : Fetcher) (fuel : Nat) (w : WorkoutState) (e : PError)
    (attr : String)
    (hattr : attr = "leaderboard_rank" ∨ attr = "leaderboard_users" ∨ attr = "achievements")
    (hdef : plainGet w attr = .vNotLoaded)
    (hdet : f.fetchDetail w.id = .error e) :
    getattrW f (fuel + 1) w attr = .err e w 1 := by
  rcases hattr with h | h | h <;> subst h <;>
    · rw [getattrW]
      simp [hdef, Value.isNotLoaded, lazyNames, hdet, pyStartsWith]

lemma lookupF_serializeAttrs_ne (k : String) (v : Value) (rest : Fields)
    (d : Nat) (key : String) (hk : ¬k = key) :
    lookupF (serializeAttrs (.cons k v rest) d) key
      = lookupF (serializeAttrs rest d) key := by
  cases v <;> rw [serializeAttrs] <;> (repeat' split) <;>
    (try simp [lookupF, hk]) <;> (repeat' split) <;> simp [lookupF, hk]

lemma serialize_nested_omit (ws : WorkoutState) (r : PObj) (hr : ws.ride = .vObj r) :
    lookupF ((serializeObj (workoutToPObj ws) 1 true).getD .nil) "ride" = none := by
  simp only [serializeObj, serializePObj, workoutToPObj, Option.getD]
  norm_num
  rw [lookupF_serializeAttrs_ne "id" _ _ _ _ (by decide), hr]
  rw [serializeAttrs]
  norm_num [show pyStartsWith "ride" "_" = false from rfl]
  rw [lookupF_serializeAttrs_ne "metrics" _ _ _ _ (by decide),
    lookupF_serializeAttrs_ne "achievements" _ _ _ _ (by decide),
    lookupF_serializeAttrs_ne "created" _ _ _ _ (by decide),
    lookupF_serializeAttrs_ne "created_at" _ _ _ _ (by decide),
    lookupF_serializeAttrs_ne "start_time" _ _ _ _ (by decide),
    lookupF_serializeAttrs_ne "end_time" _ _ _ _ (by decide),
    lookupF_serializeAttrs_ne "fitness_discipline" _ _ _ _ (by decide),
    lookupF_serializeAttrs_ne "leaderboard_rank" _ _ _ _ (by decide),
    lookupF_serializeAttrs_ne "leaderboard_users" _ _ _ _ (by decide),
    lookupF_serializeAttrs_ne "status" _ _ _ _ (by decide)]
  rfl

lemma serialize_nested_keep (ws : WorkoutState) (r : PObj) (hr : ws.ride = .vObj r) :
    lookupF ((serializeObj (workoutToPObj ws) 2 true).getD .nil) "ride"
      = some (.vDict (serializePObj r 1)) := by
  simp only [serializeObj, serializePObj, workoutToPObj, Option.getD]
  norm_num
  rw [lookupF_serializeAttrs_ne "id" _ _ _ _ (by decide), hr]
  rw [serializeAttrs]
  norm_num [show pyStartsWith "ride" "_" = false from rfl, lookupF, serializePObj]

lemma list_key_present_when_empty (k : String) (rest : Fields) (d : Nat)
    (hk : pyStartsWith k "_" = false) :
    serializeAttrs (.cons k (.vList .nil) rest) d
      = .cons k (.vList .nil) (serializeAttrs rest d) := by
  rw [serializeAttrs]
  simp [hk, serializeList, ValueList.isNil]

lemma list_key_omitted_when_exhausted (k : String) (rest : Fields) (o : PObj)
    (hk : pyStartsWith k "_" = false) :
    serializeAttrs (.cons k (.vList (.cons (.vObj o) .nil)) rest) 1
      = serializeAttrs rest 1 := by
  rw [serializeAttrs]
  simp [hk, serializeList, serializeElem, ValueList.isNil]

lemma single_digit_length (n : Nat) (h : n < 10) :
    (toString n).length = 1 ∧ (toString n).data.all Char.isDigit = true := by
  interval_cases n <;> exact ⟨rfl, rfl⟩

lemma fmtDec_one_frac (t : Int) :
    ∃ ip dg, fmtDec t = ip ++ "." ++ dg ∧ dg.length = 1
      ∧ dg.data.all Char.isDigit = true := by
  refine ⟨(if t < 0 then "-" else "") ++ toString (t.natAbs / 10),
    toString (t.natAbs % 10), ?_, single_digit_length _ (Nat.mod_lt _ (by norm_num))⟩
  rw [fmtDec]

/-- Claim C1, counterexample: serializing a Workout with the default
`load_all=True` at depth 1 makes two Fetcher calls and mutates the
instance — the deferred `metrics` and leaderboard fields are resolved and
overwritten — so `serialize` is not side-effect free as claimed. -/
theorem serialize_includeDeferred_resolves_cex :
    (workoutSerialize fGood 10 wDef 1 true).callsD = 2
    ∧ ((workoutSerialize fGood 10 wDef 1 true).stateD wDef).metrics.isNotLoaded = false
    ∧ wDef.metrics.isNotLoaded = true
    ∧ ((workoutSerialize fGood 10 wDef 1 true).stateD wDef).leaderboard_rank = .vInt 5
    ∧ wDef.leaderboard_rank = .vNotLoaded :=
  ⟨rfl, rfl, rfl, rfl, rfl⟩

/-- Claim C1 (amended): `serialize(d, includeDeferred=false)` has no side
effects on the entity and triggers no deferred-field resolution — it makes
no Fetcher call and leaves every field exactly as it was (returning `None`
at depth 0 and the empty mapping otherwise); with `includeDeferred=true`
the gathering loop performs resolving attribute reads, so on a Workout it
does trigger resolution of deferred fields. -/
theorem serialize_without_includeDeferred_is_pure (f : Fetcher) (fuel : Nat)
    (w : WorkoutState) (d : Nat) :
    workoutSerialize f fuel w d false = .ok (if d = 0 then none else some .nil) w 0 := by
  cases d <;> simp [workoutSerialize]

/-- Claim C2: with `load_all=False` the source never populates `obj_attrs`
(the `dont_load` filter is dead code), so `serialize(1, false)` on an entity
with a public, non-deferred `username` attribute returns the empty mapping
instead of the claimed field-for-field mapping; `serialize(1, true)` on the
same entity returns all its attributes. -/
theorem serialize_excludeDeferred_empty_bug :
    serializeObj demoUser 1 false = some .nil
    ∧ lookupF demoUser.attrs "username" = some (.vStr "alice")
    ∧ (Value.vStr "alice").isNotLoaded = false
    ∧ pyStartsWith "username" "_" = false
    ∧ serializeObj demoUser 1 true = some demoUser.attrs :=
  ⟨rfl, rfl, rfl, rfl, rfl⟩

/-- Claim C3: on a Workout whose leaderboard rank, leaderboard users and
achievements are all still deferred, reading any one of the three triggers
exactly one detail fetch, after which all three are resolved (so reading
either of the other two on the resulting state triggers no further fetch),
while reading `metrics` triggers one independent metrics fetch that touches
only the `metrics` field. Stated for a detail payload that carries the
three keys — the spec's "they come from the same upstream payload". -/
theorem trio_single_fetch_resolves_all (f : Fetcher) (fuel : Nat)
    (w : WorkoutState) (raw : Fields) (r u : Value) (ts : ValueList) (m : PObj)
    (hlr : w.leaderboard_rank = .vNotLoaded)
    (hlu : w.leaderboard_users = .vNotLoaded)
    (hla : w.achievements = .vNotLoaded)
    (hdet : f.fetchDetail w.id = .ok raw)
    (hr : lookupF raw "leaderboard_rank" = some r) (hrn : r.isNotLoaded = false)
    (hu : lookupF raw "total_leaderboard_users" = some u) (hun : u.isNotLoaded = false)
    (ha : lookupF raw "achievement_templates" = some (.vList ts))
    (hm : w.metrics = .vNotLoaded) (hfm : f.fetchMetrics w.id = .ok m) :
    getattrW f (fuel + 2) w "leaderboard_rank" = .ok r (trioResolved w r u ts) 1
    ∧ getattrW f (fuel + 2) w "leaderboard_users" = .ok u (trioResolved w r u ts) 1
    ∧ getattrW f (fuel + 2) w "achievements"
        = .ok (.vList (achievementPairs ts)) (trioResolved w r u ts) 1
    ∧ getattrW f (fuel + 1) (trioResolved w r u ts) "leaderboard_rank"
        = .ok r (trioResolved w r u ts) 0
    ∧ getattrW f (fuel + 1) (trioResolved w r u ts) "leaderboard_users"
        = .ok u (trioResolved w r u ts) 0
    ∧ getattrW f (fuel + 1) (trioResolved w r u ts) "achievements"
        = .ok (.vList (achievementPairs ts)) (trioResolved w r u ts) 0
    ∧ getattrW f (fuel + 1) w "metrics" = .ok (.vObj m) { w with metrics := .vObj m } 1 := by
  refine ⟨getattrW_trio_rank f fuel w raw r u ts hlr hdet hr hrn hu hun ha,
    getattrW_trio_users f fuel w raw r u ts hlu hdet hr hrn hu hun ha,
    getattrW_trio_ach f fuel w raw r u ts hla hdet hr hrn hu hun ha,
    ?_, ?_, ?_, getattrW_metrics_ok f fuel w m hm hfm⟩
  · have h := getattrW_loaded f fuel (trioResolved w r u ts) "leaderboard_rank"
      (by rw [show plainGet (trioResolved w r u ts) "leaderboard_rank"
            = (trioResolved w r u ts).leaderboard_rank from rfl]
          simp [trioResolved, hrn])
    rwa [show plainGet (trioResolved w r u ts) "leaderboard_rank"
      = (trioResolved w r u ts).leaderboard_rank from rfl,
      show (trioResolved w r u ts).leaderboard_rank = r by simp [trioResolved]] at h
  · have h := getattrW_loaded f fuel (trioResolved w r u ts) "leaderboard_users"
      (by rw [show plainGet (trioResolved w r u ts) "leaderboard_users"
            = (trioResolved w r u ts).leaderboard_users from rfl]
          simp [trioResolved, hun])
    rwa [show plainGet (trioResolved w r u ts) "leaderboard_users"
      = (trioResolved w r u ts).leaderboard_users from rfl,
      show (trioResolved w r u ts).leaderboard_users = u by simp [trioResolved]] at h
  · have h := getattrW_loaded f fuel (trioResolved w r u ts) "achievements"
      (by rw [show plainGet (trioResolved w r u ts) "achievements"
            = (trioResolved w r u ts).achievements from rfl]
          simp [trioResolved, Value.isNotLoaded])
    rwa [show plainGet (trioResolved w r u ts) "achievements"
      = (trioResolved w r u ts).achievements from rfl,
      show (trioResolved w r u ts).achievements = .vList (achievementPairs ts) by
        simp [trioResolved]] at h

/-- Claim C3, witness at `wDef` / `fGood`. -/
theorem trio_single_fetch_resolves_all_witness :
    wDef.leaderboard_rank = .vNotLoaded
    ∧ wDef.leaderboard_users = .vNotLoaded
    ∧ wDef.achievements = .vNotLoaded
    ∧ fGood.fetchDetail wDef.id = .ok rawGood
    ∧ lookupF rawGood "leaderboard_rank" = some (.vInt 5)
    ∧ (Value.vInt 5).isNotLoaded = false
    ∧ lookupF rawGood "total_leaderboard_users" = some (.vInt 100)
    ∧ (Value.vInt 100).isNotLoaded = false
    ∧ lookupF rawGood "achievement_templates" = some (.vList .nil)
    ∧ wDef.metrics = .vNotLoaded
    ∧ fGood.fetchMetrics wDef.id = .ok mObj
    ∧ getattrW fGood 2 wDef "achievements"
        = .ok (.vList (achievementPairs .nil))
            (trioResolved wDef (.vInt 5) (.vInt 100) .nil) 1
    ∧ getattrW fGood 1 (trioResolved wDef (.vInt 5) (.vInt 100) .nil) "leaderboard_rank"
        = .ok (.vInt 5) (trioResolved wDef (.vInt 5) (.vInt 100) .nil) 0 :=
  ⟨rfl, rfl, rfl, rfl, rfl, rfl, rfl, rfl, rfl, rfl, rfl,
    (trio_single_fetch_resolves_all fGood 0 wDef rawGood (.vInt 5) (.vInt 100)
      .nil mObj rfl rfl rfl rfl rfl rfl rfl rfl rfl rfl rfl).2.2.1,
    (trio_single_fetch_resolves_all fGood 0 wDef rawGood (.vInt 5) (.vInt 100)
      .nil mObj rfl rfl rfl rfl rfl rfl rfl rfl rfl rfl rfl).2.2.2.1⟩

/-- Claim C4: an already-resolved deferred-eligible field is served from
the instance with no Fetcher call and no state change; resolving `metrics`
stores the fetched object on the instance, and a second read of `metrics`
returns the stored object with zero further calls — one call in total. -/
theorem resolved_field_memoized (f : Fetcher) (fuel : Nat) (w : WorkoutState)
    (attr : String) (m : PObj)
    (hres : (plainGet w attr).isNotLoaded = false)
    (hm : w.metrics = .vNotLoaded) (hfm : f.fetchMetrics w.id = .ok m) :
    getattrW f (fuel + 1) w attr = .ok (plainGet w attr) w 0
    ∧ getattrW f (fuel + 1) w "metrics" = .ok (.vObj m) { w with metrics := .vObj m } 1
    ∧ getattrW f (fuel + 1) { w with metrics := .vObj m } "metrics"
        = .ok (.vObj m) { w with metrics := .vObj m } 0 := by
  refine ⟨getattrW_loaded f fuel w attr hres,
    getattrW_metrics_ok f fuel w m hm hfm, ?_⟩
  have h := getattrW_loaded f fuel { w with metrics := .vObj m } "metrics" rfl
  rwa [show plainGet { w with metrics := .vObj m } "metrics" = .vObj m from rfl] at h

/-- Claim C4, witness at `wDef` / `fGood`. -/
theorem resolved_field_memoized_witness :
    (plainGet wDef "status").isNotLoaded = false
    ∧ wDef.metrics = .vNotLoaded
    ∧ fGood.fetchMetrics wDef.id = .ok mObj
    ∧ getattrW fGood 1 wDef "status" = .ok (plainGet wDef "status") wDef 0
    ∧ getattrW fGood 1 wDef "metrics"
        = .ok (.vObj mObj) { wDef with metrics := .vObj mObj } 1
    ∧ getattrW fGood 1 { wDef with metrics := .vObj mObj } "metrics"
        = .ok (.vObj mObj) { wDef with metrics := .vObj mObj } 0 :=
  ⟨rfl, rfl, rfl,
    (resolved_field_memoized fGood 0 wDef "status" mObj rfl rfl rfl).1,
    (resolved_field_memoized fGood 0 wDef "status" mObj rfl rfl rfl).2.1,
    (resolved_field_memoized fGood 0 wDef "status" mObj rfl rfl rfl).2.2⟩

/-- Claim C5, counterexample: the extraction reads on the fetched detail
object are resolving reads, not plain ones. With a detail payload that
lacks all three trio keys, resolution re-triggers itself on the fetched
object and never terminates (`diverge` even with fuel 10); with a payload
lacking only `total_leaderboard_users`, the read completes but makes two
detail fetches instead of one. -/
theorem lazy_extraction_refetches_cex :
    (getattrW fLack 10 wDef "achievements").isDiverge = true
    ∧ (getattrW fTwo 10 w0a "leaderboard_users").callsD = 2 :=
  ⟨rfl, rfl⟩

/-- Claim C5 (amended): extraction pulls the trio out of the fetched detail
object with resolving reads; resolution is nonetheless bounded — it
terminates after exactly one fetch — whenever the detail payload itself
carries `leaderboard_rank`, `total_leaderboard_users` and
`achievement_templates`, because then the fetched object's fields are not
deferred and the reads stay plain. A payload lacking those keys re-triggers
resolution on the fetched object and the recursion is unbounded. -/
theorem extraction_bounded_when_payload_complete (f : Fetcher) (fuel : Nat)
    (w : WorkoutState) (raw : Fields) (r u : Value) (ts : ValueList)
    (hlr : w.leaderboard_rank = .vNotLoaded)
    (hlu : w.leaderboard_users = .vNotLoaded)
    (hla : w.achievements = .vNotLoaded)
    (hdet : f.fetchDetail w.id = .ok raw)
    (hr : lookupF raw "leaderboard_rank" = some r) (hrn : r.isNotLoaded = false)
    (hu : lookupF raw "total_leaderboard_users" = some u) (hun : u.isNotLoaded = false)
    (ha : lookupF raw "achievement_templates" = some (.vList ts)) :
    (getattrW f (fuel + 2) w "leaderboard_rank").isDiverge = false
    ∧ (getattrW f (fuel + 2) w "leaderboard_rank").callsD = 1
    ∧ (getattrW f (fuel + 2) w "leaderboard_users").isDiverge = false
    ∧ (getattrW f (fuel + 2) w "leaderboard_users").callsD = 1
    ∧ (getattrW f (fuel + 2) w "achievements").isDiverge = false
    ∧ (getattrW f (fuel + 2) w "achievements").callsD = 1 := by
  rw [getattrW_trio_rank f fuel w raw r u ts hlr hdet hr hrn hu hun ha,
    getattrW_trio_users f fuel w raw r u ts hlu hdet hr hrn hu hun ha,
    getattrW_trio_ach f fuel w raw r u ts hla hdet hr hrn hu hun ha]
  exact ⟨rfl, rfl, rfl, rfl, rfl, rfl⟩

/-- Claim C5 (amended), witness at `wDef` / `fGood`. -/
theorem extraction_bounded_when_payload_complete_witness :
    wDef.leaderboard_rank = .vNotLoaded
    ∧ fGood.fetchDetail wDef.id = .ok rawGood
    ∧ lookupF rawGood "leaderboard_rank" = some (.vInt 5)
    ∧ lookupF rawGood "total_leaderboard_users" = some (.vInt 100)
    ∧ lookupF rawGood "achievement_templates" = some (.vList .nil)
    ∧ (getattrW fGood 2 wDef "achievements").isDiverge = false
    ∧ (getattrW fGood 2 wDef "achievements").callsD = 1 :=
  ⟨rfl, rfl, rfl, rfl, rfl,
    (extraction_bounded_when_payload_complete fGood 0 wDef rawGood (.vInt 5)
      (.vInt 100) .nil rfl rfl rfl rfl rfl rfl rfl rfl rfl).2.2.2.2.1,
    (extraction_bounded_when_payload_complete fGood 0 wDef rawGood (.vInt 5)
      (.vInt 100) .nil rfl rfl rfl rfl rfl rfl rfl rfl rfl).2.2.2.2.2⟩

/-- Claim C6, counterexample: with a detail payload that carries
`leaderboard_rank` but lacks `total_leaderboard_users` and points at a
workout whose own fetch fails, reading `leaderboard_users` propagates the
server error — but `leaderboard_rank` has already been committed on the
instance, so it no longer holds the deferred marker: partial state is
committed, contradicting the claim. -/
theorem resolution_error_partial_commit_cex :
    (getattrW fBad 10 w0a "leaderboard_users").errD = some (.server "boom")
    ∧ ((getattrW fBad 10 w0a "leaderboard_users").stateD w0a).leaderboard_rank.isNotLoaded
        = false
    ∧ w0a.leaderboard_rank.isNotLoaded = true
    ∧ (getattrW fBad 10 w0a "leaderboard_users").callsD = 2 :=
  ⟨rfl, rfl, rfl, rfl⟩

/-- Claim C6 (amended): when the Fetcher call that initiates lazy
resolution fails, the error propagates unchanged to the caller of the
attribute read and no state is committed — the requested field (and, for
the trio, all three fields) still holds the deferred marker, so a later
access retries. (Only a failure of a *nested* fetch triggered while
extracting values from an incomplete detail payload can leave
earlier-extracted fields committed, per the counterexample.) -/
theorem initial_fetch_error_propagates_clean (f : Fetcher) (fuel : Nat)
    (w : WorkoutState) (attr : String) (e e' : PError)
    (hm : w.metrics = .vNotLoaded) (hfm : f.fetchMetrics w.id = .error e)
    (hattr : attr = "leaderboard_rank" ∨ attr = "leaderboard_users"
      ∨ attr = "achievements")
    (hdef : plainGet w attr = .vNotLoaded)
    (hdet : f.fetchDetail w.id = .error e') :
    getattrW f (fuel + 1) w "metrics" = .err e w 1
    ∧ getattrW f (fuel + 1) w attr = .err e' w 1 :=
  ⟨getattrW_metrics_err f fuel w e hm hfm,
    getattrW_trio_err f fuel w e' attr hattr hdef hdet⟩

/-- Claim C6 (amended), witness at `wDef` / `fErr`. -/
theorem initial_fetch_error_propagates_clean_witness :
    wDef.metrics = .vNotLoaded
    ∧ fErr.fetchMetrics wDef.id = .error (.server "s500")
    ∧ plainGet wDef "achievements" = .vNotLoaded
    ∧ fErr.fetchDetail wDef.id = .error (.client "c400")
    ∧ getattrW fErr 1 wDef "metrics" = .err (.server "s500") wDef 1
    ∧ getattrW fErr 1 wDef "achievements" = .err (.client "c400") wDef 1 :=
  ⟨rfl, rfl, rfl, rfl,
    (initial_fetch_error_propagates_clean fErr 0 wDef "achievements"
      (.server "s500") (.client "c400") rfl rfl (Or.inr (Or.inr rfl)) rfl rfl).1,
    (initial_fetch_error_propagates_clean fErr 0 wDef "achievements"
      (.server "s500") (.client "c400") rfl rfl (Or.inr (Or.inr rfl)) rfl rfl).2⟩

/-- Claim C7: `serialize(0, _)` yields `None` for every entity (plain
objects and live Workouts alike); but a Workout holding a nested Ride
serialized at depth 1 omits the `ride` key entirely — not present as null —
while at depth 2 the `ride` key is present and equals the Ride's own
`serialize(1, ...)` (the recursive call leaves `load_all` at its default). -/
theorem serialize_depth_zero_and_nested_ride (o : PObj) (la : Bool)
    (f : Fetcher) (fuel : Nat) (ws : WorkoutState) (r : PObj)
    (hr : ws.ride = .vObj r) :
    serializeObj o 0 la = none
    ∧ workoutSerialize f fuel ws 0 la = .ok none ws 0
    ∧ lookupF ((serializeObj (workoutToPObj ws) 1 true).getD .nil) "ride" = none
    ∧ serializeObj r 1 true = some (serializePObj r 1)
    ∧ lookupF ((serializeObj (workoutToPObj ws) 2 true).getD .nil) "ride"
        = some (.vDict (serializePObj r 1)) :=
  ⟨rfl, by simp [workoutSerialize], serialize_nested_omit ws r hr, rfl,
    serialize_nested_keep ws r hr⟩

/-- Claim C7, witness at `wRide` / `demoRide`. -/
theorem serialize_depth_zero_and_nested_ride_witness :
    wRide.ride = .vObj demoRide
    ∧ serializeObj demoUser 0 true = none
    ∧ workoutSerialize fGood 10 wRide 0 true = .ok none wRide 0
    ∧ lookupF ((serializeObj (workoutToPObj wRide) 1 true).getD .nil) "ride" = none
    ∧ lookupF ((serializeObj (workoutToPObj wRide) 2 true).getD .nil) "ride"
        = some (.vDict (serializePObj demoRide 1)) :=
  ⟨rfl,
    (serialize_depth_zero_and_nested_ride demoUser true fGood 10 wRide demoRide rfl).1,
    (serialize_depth_zero_and_nested_ride demoUser true fGood 10 wRide demoRide rfl).2.1,
    (serialize_depth_zero_and_nested_ride demoUser true fGood 10 wRide demoRide rfl).2.2.1,
    (serialize_depth_zero_and_nested_ride demoUser true fGood 10 wRide demoRide rfl).2.2.2.2⟩

/-- Claim C8, counterexample: a non-empty stored list whose only element is
a nested entity dropped at depth 1 produces *no* key in the output (the
source only emits the key when the serialized list is non-empty or the
stored list itself is empty), while a stored-empty list does yield the key
with `[]` — refuting the claim that both cases yield an empty sequence. -/
theorem exhausted_list_key_missing_cex :
    lookupF (serializeAttrs
      (.cons "items" (.vList (.cons (.vObj (.mk .nil)) .nil)) .nil) 1) "items" = none
    ∧ lookupF (serializeAttrs (.cons "items" (.vList .nil) .nil) 1) "items"
        = some (.vList .nil) :=
  ⟨rfl, rfl⟩

/-- Claim C8 (amended): a stored-empty list attribute serializes to its key
with an empty sequence at every depth; a non-empty list whose elements were
all nested entities dropped because the depth was exhausted is omitted from
the output entirely — key absent, not `[]`. -/
theorem list_serialization_key_presence (k : String) (rest : Fields)
    (d : Nat) (o : PObj) (hk : pyStartsWith k "_" = false) :
    serializeAttrs (.cons k (.vList .nil) rest) d
      = .cons k (.vList .nil) (serializeAttrs rest d)
    ∧ serializeAttrs (.cons k (.vList (.cons (.vObj o) .nil)) rest) 1
      = serializeAttrs rest 1 :=
  ⟨list_key_present_when_empty k rest d hk,
    list_key_omitted_when_exhausted k rest o hk⟩

/-- Claim C8 (amended), witness at key `items`. -/
theorem list_serialization_key_presence_witness :
    pyStartsWith "items" "_" = false
    ∧ serializeAttrs (.cons "items" (.vList .nil) .nil) 1
        = .cons "items" (.vList .nil) (serializeAttrs .nil 1)
    ∧ serializeAttrs (.cons "items" (.vList (.cons (.vObj (.mk .nil)) .nil)) .nil) 1
        = serializeAttrs .nil 1 :=
  ⟨rfl,
    (list_serialization_key_presence "items" .nil 1 (.mk .nil) rfl).1,
    (list_serialization_key_presence "items" .nil 1 (.mk .nil) rfl).2⟩

/-- Claim C9: type-directed encoding, for list elements and for direct
attributes alike — datetimes render via `isoformat` (ISO-8601), decimals
via `fmtDec` (a fixed-point string with exactly one fractional digit),
strings, ints and mappings pass through unchanged, and a list element of
unrecognized type (tuple, `None`, float, nested list, the deferred marker)
is silently dropped, while as a direct attribute such values pass through
the scalar branch unchanged. -/
theorem element_encoding_rules (d : Nat) (t : Nat) (dec : Int) (s : String)
    (n : Int) (dd : Fields) (a b : Value) (l : ValueList) :
    serializeElem (.vDatetime t) d = some (.vStr (isoformat t))
    ∧ serializeElem (.vDecimal dec) d = some (.vStr (fmtDec dec))
    ∧ serializeElem (.vStr s) d = some (.vStr s)
    ∧ serializeElem (.vInt n) d = some (.vInt n)
    ∧ serializeElem (.vDict dd) d = some (.vDict dd)
    ∧ serializeElem (.vPair a b) d = none
    ∧ serializeElem .vNone d = none
    ∧ serializeElem .vFloat d = none
    ∧ serializeElem .vNotLoaded d = none
    ∧ serializeElem (.vList l) d = none
    ∧ serializeScalar (.vDatetime t) = .vStr (isoformat t)
    ∧ serializeScalar (.vDecimal dec) = .vStr (fmtDec dec)
    ∧ serializeScalar (.vStr s) = .vStr s
    ∧ serializeScalar (.vInt n) = .vInt n
    ∧ serializeScalar (.vDict dd) = .vDict dd
    ∧ serializeScalar .vNone = .vNone
    ∧ serializeScalar (.vPair a b) = .vPair a b
    ∧ (∃ ip dg, fmtDec dec = ip ++ "." ++ dg ∧ dg.length = 1
        ∧ dg.data.all Char.isDigit = true) :=
  ⟨rfl, rfl, rfl, rfl, rfl, rfl, rfl, rfl, rfl, rfl, rfl, rfl, rfl, rfl,
    rfl, rfl, rfl, fmtDec_one_frac dec⟩

/-- Claim C10: a Workout built from a raw payload missing any of the
`created`, `created_at`, `start_time` or `end_time` keys sets the
corresponding attribute to the Unix-epoch-zero UTC instant (no error, no
absent attribute), and serialization renders that instant as the ISO-8601
string `1970-01-01T00:00:00+00:00`. -/
theorem missing_timestamps_default_epoch (raw : Fields) :
    (lookupF raw "created" = none → (workoutInit raw).created = .vDatetime 0)
    ∧ (lookupF raw "created_at" = none → (workoutInit raw).created_at = .vDatetime 0)
    ∧ (lookupF raw "start_time" = none → (workoutInit raw).start_time = .vDatetime 0)
    ∧ (lookupF raw "end_time" = none → (workoutInit raw).end_time = .vDatetime 0)
    ∧ serializeScalar (.vDatetime 0) = .vStr "1970-01-01T00:00:00+00:00" :=
  ⟨fun h => by simp [workoutInit, h, epochOf],
    fun h => by simp [workoutInit, h, epochOf],
    fun h => by simp [workoutInit, h, epochOf],
    fun h => by simp [workoutInit, h, epochOf], rfl⟩

/-- Claim C10, witness at the empty raw payload. -/
theorem missing_timestamps_default_epoch_witness :
    lookupF Fields.nil "created" = none
    ∧ (workoutInit Fields.nil).created = .vDatetime 0
    ∧ serializeScalar (.vDatetime 0) = .vStr "1970-01-01T00:00:00+00:00" :=
  ⟨rfl, (missing_timestamps_default_epoch Fields.nil).1 rfl,
    (missing_timestamps_default_epoch Fields.nil).2.2.2.2⟩
